import Mathlib

/-!
SearchBar (react-lazylog): a shallow embedding of `src/components/SearchBar/index.jsx`.

The component is modelled as a record (props, state, the ref to the input) and
its methods as actions over a store that also holds a log of every observable
effect: calls of the callback props, calls on the event and on the input
element, and the registration with the `hotkeys-js` library.

Conventions of the model:

* a JavaScript string is a Lean `String` (a sequence of Unicode characters); its
  `.length` counts UTF-16 code units;
* a JavaScript number is `NaN`, an infinity or a finite value; the finite values are
  taken among the rationals, which contain every finite double, and the two zeros
  are one value (the code tells them apart nowhere);
* the imported constant `SEARCH_MIN_KEYWORDS` is an integer;
* props have the types `propTypes` declares; a function prop, once called,
  returns normally, and the call is recorded in the log under the prop's name;
* calling a prop that is `undefined` raises a `TypeError`, as in JavaScript;
* `setState(update, callback)` commits the update and then runs the callback.
-/

namespace SearchBar

/-! ## JavaScript values -/

/-- Number of UTF-16 code units of one character. -/
def utf16Units (ch : Char) : Nat :=
  if ch.toNat < 65536 then 1 else 2

/-- The `.length` of a JavaScript string: its number of UTF-16 code units. -/
def jsLength (s : String) : Nat :=
  (s.data.map utf16Units).sum

/-- Truthiness of a string: every string but the empty one. -/
def truthyString (s : String) : Bool :=
  s != ""

/-- A value of the JavaScript number type, the type `propTypes` gives `resultsCount`. -/
inductive JSNumber where
  | finite (q : ℚ)
  | nan
  | posInf
  | negInf
deriving DecidableEq, Repr

/-- Truthiness of a number: false at zero and at `NaN`, true everywhere else. -/
def truthyNumber (n : JSNumber) : Bool :=
  match n with
  | JSNumber.finite q => q != 0
  | JSNumber.nan => false
  | JSNumber.posInf => true
  | JSNumber.negInf => true

/-- Strict equality `n === 1` of a number with the literal 1; `NaN` equals nothing. -/
def strictEqualsOne (n : JSNumber) : Bool :=
  match n with
  | JSNumber.finite q => q == 1
  | JSNumber.nan => false
  | JSNumber.posInf => false
  | JSNumber.negInf => false

/-- A function value passed as a prop: the default `() => {}` or a function of the caller. -/
inductive Fn where
  | noop
  | supplied (id : Nat)
deriving DecidableEq, Repr

/-- Errors raised by the JavaScript runtime. -/
inductive JSError where
  | typeError (what : String)
deriving DecidableEq, Repr

/-! ## Props, state, events -/

/-- The props the component reads (`propTypes`); only `onEnter` has no default. -/
structure Props where
  onSearch : Fn
  onClearSearch : Fn
  onFilterLinesWithMatches : Fn
  resultsCount : JSNumber
  filterActive : Bool
  disabled : Bool
  captureHotkeys : Bool
  onEnter : Option Fn
deriving DecidableEq, Repr

/-- The props as a caller passes them: each may be left out. -/
structure PassedProps where
  onSearch : Option Fn
  onClearSearch : Option Fn
  onFilterLinesWithMatches : Option Fn
  resultsCount : Option JSNumber
  filterActive : Option Bool
  disabled : Option Bool
  captureHotkeys : Option Bool
  onEnter : Option Fn
deriving DecidableEq, Repr

/-- The record `static defaultProps`: seven entries, none for `onEnter`. -/
structure DefaultProps where
  onSearch : Fn
  onClearSearch : Fn
  onFilterLinesWithMatches : Fn
  resultsCount : JSNumber
  filterActive : Bool
  disabled : Bool
  captureHotkeys : Bool
deriving DecidableEq, Repr

/-- The values of `static defaultProps`. -/
def defaultProps : DefaultProps where
  onSearch := Fn.noop
  onClearSearch := Fn.noop
  onFilterLinesWithMatches := Fn.noop
  resultsCount := JSNumber.finite 0
  filterActive := false
  disabled := false
  captureHotkeys := false

/-- How React fills in `defaultProps` for the props that were left out. -/
def resolveProps (p : PassedProps) : Props where
  onSearch := p.onSearch.getD defaultProps.onSearch
  onClearSearch := p.onClearSearch.getD defaultProps.onClearSearch
  onFilterLinesWithMatches := p.onFilterLinesWithMatches.getD defaultProps.onFilterLinesWithMatches
  resultsCount := p.resultsCount.getD defaultProps.resultsCount
  filterActive := p.filterActive.getD defaultProps.filterActive
  disabled := p.disabled.getD defaultProps.disabled
  captureHotkeys := p.captureHotkeys.getD defaultProps.captureHotkeys
  onEnter := p.onEnter

/-- A caller that passes no prop at all. -/
def noProps : PassedProps where
  onSearch := none
  onClearSearch := none
  onFilterLinesWithMatches := none
  resultsCount := none
  filterActive := none
  disabled := none
  captureHotkeys := none
  onEnter := none

/-- The component state: `state = { keywords: '' }`. -/
structure State where
  keywords : String
deriving DecidableEq, Repr

/-- The initial state. -/
def initialState : State where
  keywords := ""

/-- A component instance; `inputRefCurrent` tells whether `this.inputRef.current` is set. -/
structure Component where
  props : Props
  state : State
  inputRefCurrent : Bool
deriving DecidableEq, Repr

/-- The instance after `constructor(props)`: initial state, ref not yet attached. -/
def construct (props : Props) : Component where
  props := props
  state := initialState
  inputRefCurrent := false

/-- The `target` of a change event. -/
structure Target where
  value : String
deriving DecidableEq, Repr

/-- A change event of the input. -/
structure ChangeEvent where
  target : Target
deriving DecidableEq, Repr

/-- A keyboard event: its key and the modifiers held. -/
structure KeyboardEvent where
  key : String
  ctrlKey : Bool
  metaKey : Bool
  altKey : Bool
  shiftKey : Bool
deriving DecidableEq, Repr

/-- The methods of the component that are handed out as event handlers. -/
inductive Handler where
  | handleFilterToggle
  | handleSearchChange
  | handleKeyPress
  | handleSearchHotkey
deriving DecidableEq, Repr

/-! ## Effects and actions -/

/-- Everything a method does that is visible outside the component. -/
inductive Effect where
  | onSearch (keywords : String)
  | onClearSearch
  | onFilterLinesWithMatches (value : Bool)
  | onEnter
  | preventDefault
  | focus
  | hotkeys (shortcut : String) (handler : Handler)
deriving DecidableEq, Repr

/-- What an action runs on: the instance and the effects so far, oldest first. -/
structure Store where
  self : Component
  log : List Effect
deriving DecidableEq, Repr

/-- An action: it returns a value or raises, and leaves a store. -/
def Act (α : Type) : Type :=
  Store → Except JSError α × Store

/-- An action that only returns. -/
def Act.pure {α : Type} (a : α) : Act α :=
  fun s => (Except.ok a, s)

/-- Sequencing: a raised error skips what follows and keeps the store. -/
def Act.bind {α β : Type} (m : Act α) (f : α → Act β) : Act β :=
  fun s =>
    match m s with
    | (Except.ok a, s1) => f a s1
    | (Except.error e, s1) => (Except.error e, s1)

instance : Monad Act where
  pure := Act.pure
  bind := Act.bind

/-- Read `this`. -/
def getThis : Act Component :=
  fun s => (Except.ok s.self, s)

/-- Record one effect. -/
def emit (e : Effect) : Act Unit :=
  fun s => (Except.ok (), { s with log := s.log ++ [e] })

/-- Call a prop: a `TypeError` when it is `undefined`, else the call is recorded. -/
def callProp (f : Option Fn) (name : String) (e : Effect) : Act Unit :=
  match f with
  | none => fun s => (Except.error (JSError.typeError (name ++ " is not a function")), s)
  | some _ => emit e

/-- The call `this.setState({ keywords }, callback)`. -/
def setState (keywords : String) (callback : Act Unit) : Act Unit :=
  Act.bind
    (fun s => (Except.ok (), { s with self := { s.self with state := { keywords := keywords } } }))
    (fun _ => callback)

/-- Run an action on an instance with an empty log. -/
def run {α : Type} (m : Act α) (c : Component) : Except JSError α × Store :=
  m { self := c, log := [] }

/-! ## The methods -/

/-- The method `handleFilterToggle`. -/
def handleFilterToggle : Act Unit := do
  let this ← getThis
  callProp (some this.props.onFilterLinesWithMatches) "onFilterLinesWithMatches"
    (Effect.onFilterLinesWithMatches (!this.props.filterActive))

/-- The method `search`; `SEARCH_MIN_KEYWORDS` is imported from `../../utils`. -/
def search (SEARCH_MIN_KEYWORDS : Int) : Act Unit := do
  let this ← getThis
  let keywords := this.state.keywords
  let onSearch := this.props.onSearch
  let onClearSearch := this.props.onClearSearch
  if truthyString keywords && decide ((jsLength keywords : Int) > SEARCH_MIN_KEYWORDS) then
    callProp (some onSearch) "onSearch" (Effect.onSearch keywords)
  else
    callProp (some onClearSearch) "onClearSearch" Effect.onClearSearch

/-- The method `handleSearchChange`. -/
def handleSearchChange (SEARCH_MIN_KEYWORDS : Int) (e : ChangeEvent) : Act Unit :=
  let keywords := e.target.value
  setState keywords (search SEARCH_MIN_KEYWORDS)

/-- The method `handleSearchHotkey`. -/
def handleSearchHotkey (_e : KeyboardEvent) : Act Unit := do
  let this ← getThis
  if !this.inputRefCurrent then
    return ()
  emit Effect.preventDefault
  emit Effect.focus

/-- The method `handleKeyPress`. -/
def handleKeyPress (e : KeyboardEvent) : Act Unit := do
  let this ← getThis
  if e.key = "Enter" then
    callProp this.props.onEnter "onEnter" Effect.onEnter
  else if this.props.captureHotkeys then
    handleSearchHotkey e
  else
    return ()

/-- The method `componentDidMount`. -/
def componentDidMount : Act Unit := do
  let this ← getThis
  if this.props.captureHotkeys then
    emit (Effect.hotkeys "ctrl+f,cmd+f" Handler.handleSearchHotkey)
  else
    return ()

/-! ## Rendering -/

/-- The class names imported from `./index.module.css`. -/
structure Styles where
  searchBar : String
  searchInput : String
  button : String
  active : String
  inactive : String
deriving DecidableEq, Repr

/-- A child of a rendered element. -/
inductive Child where
  | number (n : JSNumber)
  | text (s : String)
  | component (name : String)
deriving DecidableEq, Repr

/-- The rendered `input`. -/
structure InputElement where
  autoComplete : String
  type : String
  name : String
  placeholder : String
  className : String
  onChange : Handler
  onKeyPress : Handler
  value : String
  disabled : Bool
deriving DecidableEq, Repr

/-- The rendered `button`. -/
structure ButtonElement where
  disabled : Bool
  className : String
  onClick : Handler
  children : List Child
deriving DecidableEq, Repr

/-- The rendered `span`. -/
structure SpanElement where
  className : String
  children : List Child
deriving DecidableEq, Repr

/-- The rendered `div` with its three children. -/
structure Rendered where
  className : String
  input : InputElement
  button : ButtonElement
  span : SpanElement
deriving DecidableEq, Repr

/-- The method `render`. -/
def render (css : Styles) (this : Component) : Rendered :=
  let resultsCount := this.props.resultsCount
  let filterActive := this.props.filterActive
  let disabled := this.props.disabled
  let matchesLabel := "match" ++ (if strictEqualsOne resultsCount then "" else "es")
  let filterIcon := if filterActive then css.active else css.inactive
  { className := "react-lazylog-searchbar " ++ css.searchBar
    input :=
      { autoComplete := "off"
        type := "text"
        name := "search"
        placeholder := "Search"
        className := "react-lazylog-searchbar-input " ++ css.searchInput
        onChange := Handler.handleSearchChange
        onKeyPress := Handler.handleKeyPress
        value := this.state.keywords
        disabled := disabled }
    button :=
      { disabled := disabled
        className := "react-lazylog-searchbar-filter " ++
          (if filterActive then "active" else "inactive") ++ " " ++ css.button ++ " " ++ filterIcon
        onClick := Handler.handleFilterToggle
        children := [Child.component "FilterLinesIcon"] }
    span :=
      { className := "react-lazylog-searchbar-matches " ++
          (if truthyNumber resultsCount then "active" else "inactive") ++ " " ++
          (if truthyNumber resultsCount then css.active else css.inactive)
        children := [Child.number resultsCount, Child.text " ", Child.text matchesLabel] } }

/-! ## A parent that keeps `filterActive` -/

/-- A parent component that stores what `onFilterLinesWithMatches` receives back into
the `filterActive` prop, and ignores every other effect. -/
def parentStore (p : Props) (e : Effect) : Props :=
  match e with
  | Effect.onFilterLinesWithMatches value => { p with filterActive := value }
  | _ => p

/-- One click on the filter button under such a parent: the toggle runs, the parent
handles the calls it received, and the component gets the new props. -/
def toggleUnderParent (c : Component) : Component :=
  let out := (run handleFilterToggle c).2
  { out.self with props := out.log.foldl parentStore out.self.props }

/-! ## How each method runs -/

theorem run_handleFilterToggle (c : Component) :
    run handleFilterToggle c =
      (Except.ok (), { self := c, log := [Effect.onFilterLinesWithMatches (!c.props.filterActive)] }) := by
  simp [run, handleFilterToggle, bind, Act.bind, getThis, callProp, emit]

theorem run_search (m : Int) (c : Component) :
    run (search m) c =
      (Except.ok (),
        { self := c
          log := if truthyString c.state.keywords = true ∧ m < (jsLength c.state.keywords : Int)
            then [Effect.onSearch c.state.keywords] else [Effect.onClearSearch] }) := by
  by_cases h : truthyString c.state.keywords = true ∧ m < (jsLength c.state.keywords : Int)
  · simp [run, search, bind, Act.bind, getThis, callProp, emit, h]
  · simp [run, search, bind, Act.bind, getThis, callProp, emit, h]

theorem run_handleSearchChange (m : Int) (e : ChangeEvent) (c : Component) :
    run (handleSearchChange m e) c =
      run (search m) { c with state := { keywords := e.target.value } } := by
  simp [run, handleSearchChange, setState, Act.bind]

theorem run_handleSearchHotkey (e : KeyboardEvent) (c : Component) :
    run (handleSearchHotkey e) c =
      (Except.ok (),
        { self := c, log := if c.inputRefCurrent = true then [Effect.preventDefault, Effect.focus] else [] }) := by
  by_cases h : c.inputRefCurrent = true
  · simp [run, handleSearchHotkey, bind, Act.bind, pure, Act.pure, getThis, emit, h]
  · simp [run, handleSearchHotkey, bind, Act.bind, pure, Act.pure, getThis, emit, h]

theorem run_handleKeyPress_enter (e : KeyboardEvent) (c : Component) (h : e.key = "Enter") :
    run (handleKeyPress e) c =
      match c.props.onEnter with
      | some _ => (Except.ok (), { self := c, log := [Effect.onEnter] })
      | none => (Except.error (JSError.typeError "onEnter is not a function"), { self := c, log := [] }) := by
  cases hf : c.props.onEnter <;>
    simp [run, handleKeyPress, bind, Act.bind, getThis, callProp, emit, h, hf]

theorem run_handleKeyPress_other (e : KeyboardEvent) (c : Component) (h : e.key ≠ "Enter") :
    run (handleKeyPress e) c =
      if c.props.captureHotkeys = true then run (handleSearchHotkey e) c
      else (Except.ok (), { self := c, log := [] }) := by
  by_cases hc : c.props.captureHotkeys = true
  · simp [run, handleKeyPress, bind, Act.bind, getThis, h, hc]
  · simp [run, handleKeyPress, bind, Act.bind, pure, Act.pure, getThis, h, hc]

theorem run_componentDidMount (c : Component) :
    run componentDidMount c =
      (Except.ok (),
        { self := c
          log := if c.props.captureHotkeys = true
            then [Effect.hotkeys "ctrl+f,cmd+f" Handler.handleSearchHotkey] else [] }) := by
  by_cases hc : c.props.captureHotkeys = true
  · simp [run, componentDidMount, bind, Act.bind, getThis, emit, hc]
  · simp [run, componentDidMount, bind, Act.bind, pure, Act.pure, getThis, emit, hc]

theorem truthyString_iff (s : String) : truthyString s = true ↔ s ≠ "" := by
  simp [truthyString]

theorem strictEqualsOne_iff (n : JSNumber) :
    strictEqualsOne n = true ↔ n = JSNumber.finite 1 := by
  cases n <;> simp [strictEqualsOne]

theorem truthyNumber_iff (n : JSNumber) :
    truthyNumber n = true ↔ (n ≠ JSNumber.finite 0 ∧ n ≠ JSNumber.nan) := by
  cases n <;> simp [truthyNumber]

theorem truthyNumber_false_iff (n : JSNumber) :
    truthyNumber n = false ↔ (n = JSNumber.finite 0 ∨ n = JSNumber.nan) := by
  cases n <;> simp [truthyNumber]


/-! ## Typing in the input -/

/-- C1: for every change event with value `v`, from every instance and for every
`SEARCH_MIN_KEYWORDS`, `handleSearchChange` returns normally, leaves an instance that
differs only in `state.keywords`, now `v`, and is the run of `search` on that
updated instance; the calls it makes are exactly one call `onSearch(v)`, with `v`
unchanged, or exactly one call `onClearSearch()`. -/
theorem handleSearchChange_sets_keywords_then_calls_once
    (m : Int) (e : ChangeEvent) (c : Component) :
    (run (handleSearchChange m e) c).1 = Except.ok () ∧
    (run (handleSearchChange m e) c).2.self = { c with state := { keywords := e.target.value } } ∧
    (run (handleSearchChange m e) c).2.self.state.keywords = e.target.value ∧
    run (handleSearchChange m e) c = run (search m) { c with state := { keywords := e.target.value } } ∧
    ((run (handleSearchChange m e) c).2.log = [Effect.onSearch e.target.value] ∨
      (run (handleSearchChange m e) c).2.log = [Effect.onClearSearch]) := by
  rw [run_handleSearchChange, run_search]
  refine ⟨rfl, rfl, rfl, rfl, ?_⟩
  by_cases h : truthyString e.target.value = true ∧ m < (jsLength e.target.value : Int)
  · left
    simp only [h, and_self, if_true]
  · right
    simp only [h, if_false]

/-- C2 as stated fails: with `SEARCH_MIN_KEYWORDS = 2` the value "ab" is non-empty and
has reached the minimum length 2, yet `onClearSearch` is called and `onSearch` is not. -/
theorem search_at_minimum_length_clears :
    "ab" ≠ "" ∧ (2 : Int) ≤ (jsLength "ab" : Int) ∧
    run (handleSearchChange 2 { target := { value := "ab" } }) (construct (resolveProps noProps)) =
      (Except.ok (),
        { self := { construct (resolveProps noProps) with state := { keywords := "ab" } }
          log := [Effect.onClearSearch] }) := by
  refine ⟨by decide, by decide, rfl⟩

/-- C2 amended: a non-empty value whose length is strictly greater than
`SEARCH_MIN_KEYWORDS` is forwarded to `onSearch`, unchanged, and `onClearSearch` is not
called; a value whose length is at most `SEARCH_MIN_KEYWORDS`, in particular exactly
`SEARCH_MIN_KEYWORDS`, is not forwarded: `onClearSearch` is called instead. -/
theorem search_forwards_above_minimum_length
    (m : Int) (e : ChangeEvent) (c : Component) :
    (e.target.value ≠ "" → m < (jsLength e.target.value : Int) →
      (run (handleSearchChange m e) c).1 = Except.ok () ∧
      (run (handleSearchChange m e) c).2.log = [Effect.onSearch e.target.value]) ∧
    ((jsLength e.target.value : Int) ≤ m →
      (run (handleSearchChange m e) c).1 = Except.ok () ∧
      (run (handleSearchChange m e) c).2.log = [Effect.onClearSearch]) := by
  rw [run_handleSearchChange, run_search]
  constructor
  · intro hne hlt
    have ht : truthyString e.target.value = true := (truthyString_iff _).2 hne
    simp [ht, hlt]
  · intro hle
    have hn : ¬ (truthyString e.target.value = true ∧ m < (jsLength e.target.value : Int)) :=
      fun h => absurd h.2 (not_lt.mpr hle)
    simp [hn]

/-- Witness for C2 amended, with `SEARCH_MIN_KEYWORDS = 2`: "abc" is forwarded, "ab" is not. -/
theorem search_forwards_above_minimum_length_witness :
    ((run (handleSearchChange 2 { target := { value := "abc" } })
        (construct (resolveProps noProps))).1 = Except.ok () ∧
      (run (handleSearchChange 2 { target := { value := "abc" } })
        (construct (resolveProps noProps))).2.log = [Effect.onSearch "abc"]) ∧
    ((run (handleSearchChange 2 { target := { value := "ab" } })
        (construct (resolveProps noProps))).1 = Except.ok () ∧
      (run (handleSearchChange 2 { target := { value := "ab" } })
        (construct (resolveProps noProps))).2.log = [Effect.onClearSearch]) :=
  ⟨(search_forwards_above_minimum_length 2 { target := { value := "abc" } }
      (construct (resolveProps noProps))).1 (by decide) (by decide),
    (search_forwards_above_minimum_length 2 { target := { value := "ab" } }
      (construct (resolveProps noProps))).2 (by decide)⟩

/-- C3: when the input is emptied, for every integer `SEARCH_MIN_KEYWORDS` and from
every instance, `handleSearchChange` returns normally, calls `onClearSearch` exactly
once and nothing else, and leaves `state.keywords` empty. -/
theorem emptied_input_clears_search
    (m : Int) (e : ChangeEvent) (c : Component) (h : e.target.value = "") :
    run (handleSearchChange m e) c =
      (Except.ok (),
        { self := { c with state := { keywords := "" } }, log := [Effect.onClearSearch] }) := by
  rw [run_handleSearchChange, run_search, h]
  have hn : ¬ (truthyString "" = true ∧ m < (jsLength "" : Int)) := by
    intro hh
    exact absurd hh.1 (by decide)
  simp only [hn, if_false]

/-- Witness for C3, with a negative `SEARCH_MIN_KEYWORDS` and a non-empty previous keyword. -/
theorem emptied_input_clears_search_witness :
    run (handleSearchChange (-3) { target := { value := "" } })
        { construct (resolveProps noProps) with state := { keywords := "error" } } =
      (Except.ok (),
        { self := { construct (resolveProps noProps) with state := { keywords := "" } }
          log := [Effect.onClearSearch] }) :=
  emptied_input_clears_search (-3) { target := { value := "" } }
    { construct (resolveProps noProps) with state := { keywords := "error" } } rfl

/-! ## The filter button -/

/-- C4: from every instance, `handleFilterToggle` returns normally, calls
`onFilterLinesWithMatches` exactly once with `!filterActive`, calls nothing else and
changes neither state nor props; under a parent that stores the received value back
into `filterActive`, one toggle negates the flag and two toggles restore the instance. -/
theorem handleFilterToggle_negates_filterActive (c : Component) :
    run handleFilterToggle c =
      (Except.ok (),
        { self := c, log := [Effect.onFilterLinesWithMatches (!c.props.filterActive)] }) ∧
    (run handleFilterToggle c).2.self.state.keywords = c.state.keywords ∧
    (toggleUnderParent c).props.filterActive = (!c.props.filterActive) ∧
    toggleUnderParent (toggleUnderParent c) = c := by
  refine ⟨run_handleFilterToggle c, ?_, ?_, ?_⟩
  · rw [run_handleFilterToggle]
  · simp [toggleUnderParent, run_handleFilterToggle, parentStore]
  · simp [toggleUnderParent, run_handleFilterToggle, parentStore]

/-! ## Key presses -/

/-- C5 fails on the code: with no prop passed, so that the defaults are in effect,
`onEnter` is `undefined`, and a press of Enter raises a `TypeError` without any call of
`onFilterLinesWithMatches`. -/
theorem handleKeyPress_enter_without_onEnter_raises :
    (resolveProps noProps).onEnter = none ∧
    run (handleKeyPress
          { key := "Enter", ctrlKey := false, metaKey := false, altKey := false, shiftKey := false })
        (construct (resolveProps noProps)) =
      (Except.error (JSError.typeError "onEnter is not a function"),
        { self := construct (resolveProps noProps), log := [] }) :=
  ⟨rfl, rfl⟩

/-- C6: for every key press of Enter, whatever the modifiers, the other props (among
them `captureHotkeys`), the state and the ref, when `onEnter` is a function
`handleKeyPress` returns normally, calls `onEnter()` exactly once, calls nothing else
(no `preventDefault`, no `focus`, no other prop) and leaves the instance as it was. -/
theorem handleKeyPress_enter_calls_onEnter_only
    (e : KeyboardEvent) (c : Component) (f : Fn)
    (hkey : e.key = "Enter") (hf : c.props.onEnter = some f) :
    run (handleKeyPress e) c = (Except.ok (), { self := c, log := [Effect.onEnter] }) := by
  rw [run_handleKeyPress_enter e c hkey, hf]

/-- Witness for C6: Enter with Ctrl held, hotkeys captured, the input attached. -/
theorem handleKeyPress_enter_calls_onEnter_only_witness :
    run (handleKeyPress
          { key := "Enter", ctrlKey := true, metaKey := false, altKey := false, shiftKey := false })
        { props := { resolveProps noProps with
                      captureHotkeys := true, onEnter := some (Fn.supplied 7) }
          state := { keywords := "warn" }
          inputRefCurrent := true } =
      (Except.ok (),
        { self :=
            { props := { resolveProps noProps with
                          captureHotkeys := true, onEnter := some (Fn.supplied 7) }
              state := { keywords := "warn" }
              inputRefCurrent := true }
          log := [Effect.onEnter] }) :=
  handleKeyPress_enter_calls_onEnter_only _ _ (Fn.supplied 7) rfl rfl

/-- C7: `captureHotkeys` is false when the caller leaves it out; `componentDidMount`
registers `handleSearchHotkey` for the shortcut "ctrl+f,cmd+f" exactly once, and does
nothing else, when `captureHotkeys` is true, and does nothing at all when it is false;
and when it is false a press of a key other than Enter has no effect at all. -/
theorem hotkey_capture_is_optional
    (p : PassedProps) (e : KeyboardEvent) (c : Component) :
    (resolveProps { p with captureHotkeys := none }).captureHotkeys = false ∧
    (c.props.captureHotkeys = true →
      run componentDidMount c =
        (Except.ok (),
          { self := c, log := [Effect.hotkeys "ctrl+f,cmd+f" Handler.handleSearchHotkey] })) ∧
    (c.props.captureHotkeys = false →
      run componentDidMount c = (Except.ok (), { self := c, log := [] }) ∧
      (e.key ≠ "Enter" →
        run (handleKeyPress e) c = (Except.ok (), { self := c, log := [] }))) := by
  refine ⟨rfl, ?_, ?_⟩
  · intro h
    rw [run_componentDidMount, if_pos h]
  · intro h
    have hn : ¬ c.props.captureHotkeys = true := by simp [h]
    refine ⟨?_, ?_⟩
    · rw [run_componentDidMount, if_neg hn]
    · intro hkey
      rw [run_handleKeyPress_other e c hkey, if_neg hn]

/-- Witness for C7: mounting with and without `captureHotkeys`, and Ctrl-F pressed in
the attached input of a component that does not capture hotkeys. -/
theorem hotkey_capture_is_optional_witness :
    run componentDidMount (construct { resolveProps noProps with captureHotkeys := true }) =
      (Except.ok (),
        { self := construct { resolveProps noProps with captureHotkeys := true }
          log := [Effect.hotkeys "ctrl+f,cmd+f" Handler.handleSearchHotkey] }) ∧
    run componentDidMount (construct (resolveProps noProps)) =
      (Except.ok (), { self := construct (resolveProps noProps), log := [] }) ∧
    run (handleKeyPress
          { key := "f", ctrlKey := true, metaKey := false, altKey := false, shiftKey := false })
        { construct (resolveProps noProps) with inputRefCurrent := true } =
      (Except.ok (),
        { self := { construct (resolveProps noProps) with inputRefCurrent := true }, log := [] }) :=
  ⟨(hotkey_capture_is_optional noProps
      { key := "f", ctrlKey := true, metaKey := false, altKey := false, shiftKey := false }
      (construct { resolveProps noProps with captureHotkeys := true })).2.1 rfl,
    ((hotkey_capture_is_optional noProps
      { key := "f", ctrlKey := true, metaKey := false, altKey := false, shiftKey := false }
      (construct (resolveProps noProps))).2.2 rfl).1,
    ((hotkey_capture_is_optional noProps
      { key := "f", ctrlKey := true, metaKey := false, altKey := false, shiftKey := false }
      { construct (resolveProps noProps) with inputRefCurrent := true }).2.2 rfl).2 (by decide)⟩

/-- C9: when `captureHotkeys` is true, for every key other than Enter and whatever the
modifiers, `handleKeyPress` does what `handleSearchHotkey` does: with the input attached
it calls `preventDefault` exactly once, then `focus` exactly once; with the input not
attached `handleSearchHotkey` returns without either. In both cases no prop is called
and the instance, `state.keywords` included, is unchanged. -/
theorem handleKeyPress_other_key_is_hotkey
    (e : KeyboardEvent) (c : Component)
    (hcap : c.props.captureHotkeys = true) (hkey : e.key ≠ "Enter") :
    run (handleKeyPress e) c = run (handleSearchHotkey e) c ∧
    (c.inputRefCurrent = true →
      run (handleKeyPress e) c =
        (Except.ok (), { self := c, log := [Effect.preventDefault, Effect.focus] })) ∧
    (c.inputRefCurrent = false →
      run (handleSearchHotkey e) c = (Except.ok (), { self := c, log := [] }) ∧
      run (handleKeyPress e) c = (Except.ok (), { self := c, log := [] })) := by
  have hrun : run (handleKeyPress e) c = run (handleSearchHotkey e) c := by
    rw [run_handleKeyPress_other e c hkey, if_pos hcap]
  refine ⟨hrun, ?_, ?_⟩
  · intro h
    rw [hrun, run_handleSearchHotkey, if_pos h]
  · intro h
    have hn : ¬ c.inputRefCurrent = true := by simp [h]
    rw [hrun, run_handleSearchHotkey, if_neg hn]
    exact ⟨rfl, rfl⟩

/-- Witness for C9: the plain character key "a", no modifier held, with the input
attached and with the input not attached. -/
theorem handleKeyPress_other_key_is_hotkey_witness :
    run (handleKeyPress
          { key := "a", ctrlKey := false, metaKey := false, altKey := false, shiftKey := false })
        { construct { resolveProps noProps with captureHotkeys := true } with
          inputRefCurrent := true } =
      (Except.ok (),
        { self := { construct { resolveProps noProps with captureHotkeys := true } with
                    inputRefCurrent := true }
          log := [Effect.preventDefault, Effect.focus] }) ∧
    run (handleKeyPress
          { key := "a", ctrlKey := false, metaKey := false, altKey := false, shiftKey := false })
        (construct { resolveProps noProps with captureHotkeys := true }) =
      (Except.ok (),
        { self := construct { resolveProps noProps with captureHotkeys := true }, log := [] }) :=
  ⟨(handleKeyPress_other_key_is_hotkey
      { key := "a", ctrlKey := false, metaKey := false, altKey := false, shiftKey := false }
      { construct { resolveProps noProps with captureHotkeys := true } with
        inputRefCurrent := true } rfl (by decide)).2.1 rfl,
    ((handleKeyPress_other_key_is_hotkey
      { key := "a", ctrlKey := false, metaKey := false, altKey := false, shiftKey := false }
      (construct { resolveProps noProps with captureHotkeys := true }) rfl (by decide)).2.2 rfl).2⟩

/-! ## Rendering -/

/-- C8: for all class names, props and state, the rendered input and the rendered
filter button both carry `disabled` equal to the `disabled` prop, which is false when
the caller leaves it out, and the value of the rendered input is `state.keywords`. -/
theorem render_disabled_and_value (css : Styles) (c : Component) (p : PassedProps) :
    (render css c).input.disabled = c.props.disabled ∧
    (render css c).button.disabled = c.props.disabled ∧
    (render css c).input.value = c.state.keywords ∧
    (resolveProps { p with disabled := none }).disabled = false :=
  ⟨rfl, rfl, rfl, rfl⟩

/-- C10 as stated fails: `NaN` is a value of the number type and is not zero, yet with
`resultsCount = NaN` the indicator carries the inactive class, not the active one. -/
theorem render_nan_count_is_inactive :
    JSNumber.nan ≠ JSNumber.finite 0 ∧
    (render
        { searchBar := "searchBar", searchInput := "searchInput", button := "button",
          active := "active_1", inactive := "inactive_2" }
        (construct { resolveProps noProps with resultsCount := JSNumber.nan })).span.className =
      "react-lazylog-searchbar-matches inactive inactive_2" ∧
    (render
        { searchBar := "searchBar", searchInput := "searchInput", button := "button",
          active := "active_1", inactive := "inactive_2" }
        (construct { resolveProps noProps with resultsCount := JSNumber.nan })).span.className ≠
      "react-lazylog-searchbar-matches active active_1" := by
  refine ⟨by simp, by decide, by decide⟩

/-- C10 amended: for every value `resultsCount` of the number type the match-count
indicator shows the count, a blank and a label; the label is "match" exactly when the
count is 1 and "matches" exactly when it is not; the class of the indicator is the
active variant exactly when the count is neither 0 nor `NaN`, and the inactive variant
exactly when it is 0 or `NaN`; and the class of the filter button is the active variant
exactly when `filterActive` is true, the inactive variant exactly when it is false. -/
theorem render_match_count_and_classes (css : Styles) (c : Component) :
    ((render css c).span.children =
        [Child.number c.props.resultsCount, Child.text " ", Child.text "match"] ↔
      c.props.resultsCount = JSNumber.finite 1) ∧
    ((render css c).span.children =
        [Child.number c.props.resultsCount, Child.text " ", Child.text "matches"] ↔
      c.props.resultsCount ≠ JSNumber.finite 1) ∧
    ((render css c).span.className =
        "react-lazylog-searchbar-matches active " ++ css.active ↔
      (c.props.resultsCount ≠ JSNumber.finite 0 ∧ c.props.resultsCount ≠ JSNumber.nan)) ∧
    ((render css c).span.className =
        "react-lazylog-searchbar-matches inactive " ++ css.inactive ↔
      (c.props.resultsCount = JSNumber.finite 0 ∨ c.props.resultsCount = JSNumber.nan)) ∧
    ((render css c).button.className =
        "react-lazylog-searchbar-filter active " ++ css.button ++ " " ++ css.active ↔
      c.props.filterActive = true) ∧
    ((render css c).button.className =
        "react-lazylog-searchbar-filter inactive " ++ css.button ++ " " ++ css.inactive ↔
      c.props.filterActive = false) := by
  refine ⟨?_, ?_, ?_, ?_, ?_, ?_⟩
  · rw [← strictEqualsOne_iff]
    cases h : strictEqualsOne c.props.resultsCount <;> simp [render, h]
  · rw [Ne, ← strictEqualsOne_iff]
    cases h : strictEqualsOne c.props.resultsCount <;> simp [render, h]
  · rw [← truthyNumber_iff]
    cases h : truthyNumber c.props.resultsCount <;>
      simp [render, h, String.ext_iff, String.data_append]
  · rw [← truthyNumber_false_iff]
    cases h : truthyNumber c.props.resultsCount <;>
      simp [render, h, String.ext_iff, String.data_append]
  · cases h : c.props.filterActive <;>
      simp [render, h, String.ext_iff, String.data_append]
  · cases h : c.props.filterActive <;>
      simp [render, h, String.ext_iff, String.data_append]

end SearchBar
